import Mathlib

/-
Verification of the DocuScan session controller (src/main.py).

The source is a chainlit app: `start` initialises the per-connection session
(`chat_history`, `pdf_content`), `main` classifies each inbound message
(upload-intent exact phrase, identity substring, document query, or upload
solicitation), and `process_query` builds the combined prompt, calls the
completion collaborator, and maintains the history.

The embedding below models the session state as a structure, the two external
collaborators (PDF text extraction and LLM completion) as explicit inputs, and
the user-visible side effects (messages sent, the thinking-message update, the
file-upload solicitation, and the completion call itself) as an effect list.

A semantic point carried over faithfully from the source: in `process_query`
the local variable is bound by `history = cl.user_session.get("chat_history") or []`.
When the stored history is non-empty this local list IS the stored list (Python
aliasing), so `history.append(...)` mutates the session store in place even on
the error path, which never calls `cl.user_session.set`.  When the stored
history is empty, `or []` produces a fresh list, so on the error path the
appended user entry is discarded and the stored history stays empty.
-/

/-- A chat message: a role ("user" or "assistant") plus content. -/
structure Message where
  role : String
  content : String
deriving DecidableEq

/-- Per-connection session state: the extracted PDF text (`pdf_content`,
empty means no document loaded) and the running history (`chat_history`). -/
structure Session where
  pdfContent : String
  chatHistory : List Message
deriving DecidableEq

/-- User-visible side effects of handling one inbound message, in order:
a chat message sent, the thinking-message content replaced by `update`, a
file-upload solicitation (`cl.AskFileMessage`), or a call to the completion
collaborator with the given message sequence. -/
inductive Effect where
  | send (content : String)
  | update (content : String)
  | askFile (content : String)
  | callCompletion (messages : List Message)
deriving DecidableEq

/-- ASCII lowercase of one character, as Python's str.lower acts on the
ASCII trigger phrases the source compares against. -/
def lowerChar (c : Char) : Char :=
  if 65 ≤ c.toNat ∧ c.toNat ≤ 90 then Char.ofNat (c.toNat + 32) else c

/-- Lowercase a string character by character. -/
def lowerStr (s : String) : String := String.mk (s.data.map lowerChar)

/-- Does `pat` occur at the start of `s`? -/
def charsPrefixOf : List Char → List Char → Bool
  | [], _ => true
  | _ :: _, [] => false
  | c :: cs, d :: ds => c == d && charsPrefixOf cs ds

/-- Does `pat` occur anywhere in the character list? -/
def charsContains (pat : List Char) : List Char → Bool
  | [] => charsPrefixOf pat []
  | c :: cs => charsPrefixOf pat (c :: cs) || charsContains pat cs

/-- Python's `pat in s` substring test. -/
def strContains (s pat : String) : Bool := charsContains pat.data s.data

/-- The upload-intent phrases matched exactly (lowercased) in `main`. -/
def uploadTriggerPhrases : List String :=
  ["upload pdf", "new pdf", "analyze another pdf", "upload another pdf"]

/-- The identity-question substrings checked in `main`. -/
def identity_questions : List String :=
  ["what is your name", "who are you", "who created you", "what do you do",
   "what can you help me with", "what are you", "who made you",
   "what\x27s your name", "what are your capabilities", "what\x27s your purpose",
   "what is your purpose", "what are you for", "what can you do"]

/-- The switch-document substrings checked in `process_query`. -/
def switchDocumentPhrases : List String :=
  ["analyze another pdf", "upload another pdf", "new pdf", "different pdf",
   "another document"]

/-- Content of every `cl.AskFileMessage` in the source. -/
def uploadPromptText : String := "Please upload a PDF file to analyze!"

/-- The fixed identity reply of `main`. -/
def identityResponse : String :=
  "I am Yusra\x27s Assistant, created by Yusra Saleem. I specialize in analyzing PDF documents.\n\nMy main capabilities include:\n- Reading and analyzing PDF documents\n- Answering questions about document content\n- Extracting key information from documents\n- Helping users understand complex documents\n\nI\x27m here to help you better understand any PDF documents you share with me. Feel free to upload a PDF and ask me questions about it."

/-- The welcome message sent on chat start. -/
def welcomeMessage : String :=
  "Welcome! I am DocuScan AI and created by Yusra Saleem. I specialize in analyzing PDF documents you can ask me any thing about your PDF document.\n\nI can help you:\n- Analyze PDF documents\n- Answer questions about document content\n- Extract key information\n- Process multiple PDFs (just ask to upload another one anytime!)\n\nPlease upload a PDF file to get started."

/-- Reply when the file-upload wait yields no file. -/
def noFileText : String := "No file uploaded. Please try again."

/-- Reply when extraction yields the empty string. -/
def extractErrorText : String :=
  "Error: Could not extract text from the PDF. Please upload a valid PDF file."

/-- The guard message of the unreachable branch in `process_query`. -/
def noPdfErrorText : String :=
  "Error: No PDF content available. Please upload a PDF first."

/-- Reply on a switch-document request inside `process_query`. -/
def switchReplyText : String :=
  "Sure! I can help you analyze another PDF. Please upload the new PDF file."

/-- The placeholder content of the thinking message. -/
def thinkingText : String := "Thinking..."

/-- A PDF as the extractor sees it: `none` models `fitz.open` raising (the
source catches the exception and returns ""), `some pages` the page texts. -/
structure PdfFile where
  name : String
  pages : Option (List String)
deriving DecidableEq

/-- `extract_text_from_pdf`: concatenate the page texts; any exception is
caught and yields the empty string. -/
def extract_text_from_pdf : Option (List String) → String
  | none => ""
  | some pages => pages.foldl (fun acc p => acc ++ p) ""

/-- Outcome of the completion collaborator: the assistant content on success,
the exception text on failure. -/
abbrev CompletionResult := Except String String

/-- The combined prompt of `process_query`: fixed framing, the full PDF
content, and the raw query. -/
def combinedPrompt (pdfContent query : String) : String :=
  "You are Yusra\x27s Assistant created by Yusra Saleem. Use the following PDF content to answer the user\x27s question.\nI want you to analyze the PDF content carefully and provide accurate, helpful responses.\n\nPDF Content:\n"
    ++ pdfContent ++ "\n\nUser Question: " ++ query

/-- The switch-document check of `process_query`: any phrase occurs as a
substring of the lowercased query. -/
def isSwitchRequest (query : String) : Bool :=
  switchDocumentPhrases.any (fun p => strContains (lowerStr query) p)

/-- `process_query` from src/main.py.  The error branch reflects the source's
aliasing: with a previously empty stored history the appended user entry lives
only in a fresh local list and is dropped (no `set` on that path); with a
non-empty stored history the in-place append already reached the store. -/
def process_query (query : String) (comp : CompletionResult) (s : Session) :
    Session × List Effect :=
  if s.pdfContent == "" then
    (s, [Effect.send thinkingText, Effect.update noPdfErrorText])
  else if isSwitchRequest query then
    ({ s with pdfContent := "" },
     [Effect.send thinkingText, Effect.update switchReplyText,
      Effect.askFile uploadPromptText])
  else
    let prompt := combinedPrompt s.pdfContent query
    let sentHistory := s.chatHistory ++ [⟨"user", prompt⟩]
    match comp with
    | Except.ok resp =>
        ({ s with chatHistory := sentHistory ++ [⟨"assistant", resp⟩] },
         [Effect.send thinkingText, Effect.callCompletion sentHistory,
          Effect.update resp])
    | Except.error e =>
        ({ s with chatHistory :=
            if s.chatHistory.isEmpty then s.chatHistory else sentHistory },
         [Effect.send thinkingText, Effect.callCompletion sentHistory,
          Effect.update ("Error: " ++ e)])

/-- `main` from src/main.py: classify the inbound message and dispatch.
`uploadedFile` is the outcome of the file-upload wait in the solicitation
branch (`none` models no file within the timeout). -/
def on_message (content : String) (uploadedFile : Option PdfFile)
    (comp : CompletionResult) (s : Session) : Session × List Effect :=
  if uploadTriggerPhrases.contains (lowerStr content) then
    ({ s with pdfContent := "" }, [Effect.askFile uploadPromptText])
  else if identity_questions.any (fun q => strContains (lowerStr content) q) then
    (s, [Effect.send identityResponse])
  else if s.pdfContent != "" then
    process_query content comp s
  else
    match uploadedFile with
    | none => (s, [Effect.askFile uploadPromptText, Effect.send noFileText])
    | some f =>
        let pdf_text := extract_text_from_pdf f.pages
        if pdf_text != "" then
          ({ s with pdfContent := pdf_text },
           [Effect.askFile uploadPromptText,
            Effect.send ("PDF \x27" ++ f.name
              ++ "\x27 processed successfully! Ask me questions about the document.")])
        else
          (s, [Effect.askFile uploadPromptText, Effect.send extractErrorText])

/-- `start` from src/main.py: fresh session plus the welcome message. -/
def start : Session × List Effect :=
  ({ pdfContent := "", chatHistory := [] }, [Effect.send welcomeMessage])

/-- The session as created on chat start. -/
def startSession : Session := start.1

/-- One inbound user turn together with the collaborator outcomes it observes. -/
structure Event where
  content : String
  uploadedFile : Option PdfFile
  comp : CompletionResult

/-- State reached after handling one turn. -/
def stepSession (s : Session) (e : Event) : Session :=
  (on_message e.content e.uploadedFile e.comp s).1

/-- State reached from chat start after a sequence of turns. -/
def runSession (evs : List Event) : Session :=
  evs.foldl stepSession startSession

/-- C2: in the READY state, on a query without a switch-document phrase whose
completion call succeeds, the history grows by exactly two entries, first the
user entry holding the combined prompt (fixed framing, the whole document text,
the raw query), then the assistant entry holding the response, and the response
is displayed via the thinking-message update. -/
theorem process_query_success_two_entries (s : Session) (query resp : String)
    (hpdf : s.pdfContent ≠ "") (hsw : isSwitchRequest query = false) :
    (process_query query (Except.ok resp) s).1.chatHistory
      = s.chatHistory
          ++ [⟨"user", combinedPrompt s.pdfContent query⟩, ⟨"assistant", resp⟩]
    ∧ Effect.update resp ∈ (process_query query (Except.ok resp) s).2 := by
  simp [process_query, hpdf, hsw]

/-- Witness for C2 at the spec's own scenario: document "Revenue: $5M",
question "what is the revenue?", mocked reply "$5M". -/
theorem process_query_success_two_entries_witness :
    (process_query "what is the revenue?" (Except.ok "$5M")
        ⟨"Revenue: $5M", []⟩).1.chatHistory
      = [⟨"user", combinedPrompt "Revenue: $5M" "what is the revenue?"⟩,
         ⟨"assistant", "$5M"⟩]
    ∧ Effect.update "$5M"
        ∈ (process_query "what is the revenue?" (Except.ok "$5M")
            ⟨"Revenue: $5M", []⟩).2 := by
  have h := process_query_success_two_entries ⟨"Revenue: $5M", []⟩
    "what is the revenue?" "$5M" (by decide) (by decide)
  simpa using h

/-- C1 fails as stated: with an empty prior history, a failing completion call
leaves the stored history empty — growth by zero entries, not one.  The user
entry was appended to the fresh local list produced by the falsy-or default,
and the error path never stores that list back into the session. -/
theorem process_query_error_empty_history :
    (process_query "summarize this" (Except.error "boom")
        ⟨"doc text", []⟩).1.chatHistory = []
    ∧ ((process_query "summarize this" (Except.error "boom")
        ⟨"doc text", []⟩).1.chatHistory).length ≠ ([] : List Message).length + 1 := by
  decide

/-- C1 amended: in the READY state, on a query without a switch-document phrase
whose completion call fails, an error string is shown and no assistant entry is
appended; the stored history grows by the single user entry holding the
combined prompt only when it was non-empty beforehand, and is left unchanged
(the user entry is lost) when it was empty. -/
theorem process_query_error_appends_user_only (s : Session) (query err : String)
    (hpdf : s.pdfContent ≠ "") (hsw : isSwitchRequest query = false) :
    (process_query query (Except.error err) s).1.chatHistory
      = (if s.chatHistory.isEmpty then s.chatHistory
         else s.chatHistory ++ [⟨"user", combinedPrompt s.pdfContent query⟩])
    ∧ Effect.update ("Error: " ++ err)
        ∈ (process_query query (Except.error err) s).2 := by
  simp [process_query, hpdf, hsw]

/-- Witness for the amended C1 at a non-empty prior history. -/
theorem process_query_error_appends_user_only_witness :
    (process_query "summarize this" (Except.error "boom")
        ⟨"doc text", [⟨"user", "hi"⟩]⟩).1.chatHistory
      = [⟨"user", "hi"⟩, ⟨"user", combinedPrompt "doc text" "summarize this"⟩]
    ∧ Effect.update ("Error: " ++ "boom")
        ∈ (process_query "summarize this" (Except.error "boom")
            ⟨"doc text", [⟨"user", "hi"⟩]⟩).2 := by
  have h := process_query_error_appends_user_only ⟨"doc text", [⟨"user", "hi"⟩]⟩
    "summarize this" "boom" (by decide) (by decide)
  simpa using h

/-- C3: in the READY state, a query containing a switch-document phrase clears
the document text, shows the re-upload reply and solicits an upload, never
calls the completion collaborator, and leaves the history unchanged. -/
theorem process_query_switch_document (s : Session) (query : String)
    (comp : CompletionResult)
    (hpdf : s.pdfContent ≠ "") (hsw : isSwitchRequest query = true) :
    (process_query query comp s).1.pdfContent = ""
    ∧ (process_query query comp s).1.chatHistory = s.chatHistory
    ∧ Effect.update switchReplyText ∈ (process_query query comp s).2
    ∧ Effect.askFile uploadPromptText ∈ (process_query query comp s).2
    ∧ ∀ msgs, Effect.callCompletion msgs ∉ (process_query query comp s).2 := by
  simp [process_query, hpdf, hsw]

/-- Witness for C3 on the query "please analyze another pdf". -/
theorem process_query_switch_document_witness :
    (process_query "please analyze another pdf" (Except.ok "x")
        ⟨"doc text", [⟨"user", "hi"⟩]⟩).1.pdfContent = ""
    ∧ (process_query "please analyze another pdf" (Except.ok "x")
        ⟨"doc text", [⟨"user", "hi"⟩]⟩).1.chatHistory = [⟨"user", "hi"⟩]
    ∧ Effect.update switchReplyText
        ∈ (process_query "please analyze another pdf" (Except.ok "x")
            ⟨"doc text", [⟨"user", "hi"⟩]⟩).2
    ∧ Effect.askFile uploadPromptText
        ∈ (process_query "please analyze another pdf" (Except.ok "x")
            ⟨"doc text", [⟨"user", "hi"⟩]⟩).2
    ∧ ∀ msgs, Effect.callCompletion msgs
        ∉ (process_query "please analyze another pdf" (Except.ok "x")
            ⟨"doc text", [⟨"user", "hi"⟩]⟩).2 := by
  have h := process_query_switch_document ⟨"doc text", [⟨"user", "hi"⟩]⟩
    "please analyze another pdf" (Except.ok "x") (by decide) (by decide)
  simpa using h

/-- C4: a message whose lowercased text is exactly an upload-intent phrase
clears the document text in any state, solicits an upload, and leaves the
history untouched; the document text is likewise empty right after chat
start. -/
theorem on_message_upload_trigger (s : Session) (content : String)
    (f : Option PdfFile) (comp : CompletionResult)
    (h : uploadTriggerPhrases.contains (lowerStr content) = true) :
    (on_message content f comp s).1.pdfContent = ""
    ∧ (on_message content f comp s).1.chatHistory = s.chatHistory
    ∧ Effect.askFile uploadPromptText ∈ (on_message content f comp s).2
    ∧ startSession.pdfContent = "" := by
  unfold on_message
  rw [if_pos h]
  exact ⟨rfl, rfl, by simp, rfl⟩

/-- Witness for C4 on the mixed-case message "Upload PDF" in the READY state. -/
theorem on_message_upload_trigger_witness :
    (on_message "Upload PDF" none (Except.ok "x")
        ⟨"doc text", [⟨"user", "hi"⟩]⟩).1.pdfContent = ""
    ∧ (on_message "Upload PDF" none (Except.ok "x")
        ⟨"doc text", [⟨"user", "hi"⟩]⟩).1.chatHistory = [⟨"user", "hi"⟩]
    ∧ Effect.askFile uploadPromptText
        ∈ (on_message "Upload PDF" none (Except.ok "x")
            ⟨"doc text", [⟨"user", "hi"⟩]⟩).2
    ∧ startSession.pdfContent = "" := by
  have h := on_message_upload_trigger ⟨"doc text", [⟨"user", "hi"⟩]⟩
    "Upload PDF" none (Except.ok "x") (by decide)
  simpa using h

/-- C5: a message classified as an upload request (exact trigger phrase) or as
an identity question never contributes an entry to the history: the dispatcher
leaves the history of any session unchanged on such messages, so only
document-query exchanges are ever recorded. -/
theorem history_unchanged_upload_or_identity (s : Session) (content : String)
    (f : Option PdfFile) (comp : CompletionResult)
    (h : uploadTriggerPhrases.contains (lowerStr content) = true
       ∨ identity_questions.any (fun q => strContains (lowerStr content) q) = true) :
    (on_message content f comp s).1.chatHistory = s.chatHistory := by
  unfold on_message
  rcases h with h | h
  · rw [if_pos h]
  · cases ht : uploadTriggerPhrases.contains (lowerStr content) with
    | true => rw [if_pos rfl]
    | false => rw [if_neg Bool.false_ne_true, if_pos h]

/-- Witness for C5 on the identity question "who are you" in a READY session. -/
theorem history_unchanged_upload_or_identity_witness :
    (on_message "who are you" none (Except.ok "x")
        ⟨"doc text", [⟨"user", "hi"⟩]⟩).1.chatHistory = [⟨"user", "hi"⟩] := by
  have h := history_unchanged_upload_or_identity ⟨"doc text", [⟨"user", "hi"⟩]⟩
    "who are you" none (Except.ok "x") (Or.inr (by decide))
  simpa using h

/-- C6: a message that is not an exact upload-intent phrase but contains an
identity-question substring gets the fixed identity reply and leaves the whole
session (document text and history) unchanged, in either state. -/
theorem on_message_identity_fixed_reply (s : Session) (content : String)
    (f : Option PdfFile) (comp : CompletionResult)
    (hnt : uploadTriggerPhrases.contains (lowerStr content) = false)
    (hid : identity_questions.any (fun q => strContains (lowerStr content) q) = true) :
    on_message content f comp s = (s, [Effect.send identityResponse]) := by
  unfold on_message
  rw [if_neg (by simp only [hnt]; exact Bool.false_ne_true), if_pos hid]

/-- Witness for C6 on "so who are you exactly?" in the READY state. -/
theorem on_message_identity_fixed_reply_witness :
    on_message "so who are you exactly?" none (Except.ok "x")
        ⟨"doc text", [⟨"user", "hi"⟩]⟩
      = (⟨"doc text", [⟨"user", "hi"⟩]⟩, [Effect.send identityResponse]) :=
  on_message_identity_fixed_reply ⟨"doc text", [⟨"user", "hi"⟩]⟩
    "so who are you exactly?" none (Except.ok "x") (by decide) (by decide)

/-- C7: in the AWAITING_UPLOAD state, when the extractor returns non-empty
text, the session stores that text verbatim and is thereby READY. -/
theorem on_message_upload_success_ready (s : Session) (content : String)
    (f : PdfFile) (comp : CompletionResult)
    (hpdf : s.pdfContent = "")
    (hnt : uploadTriggerPhrases.contains (lowerStr content) = false)
    (hid : identity_questions.any (fun q => strContains (lowerStr content) q) = false)
    (hex : extract_text_from_pdf f.pages ≠ "") :
    (on_message content (some f) comp s).1.pdfContent = extract_text_from_pdf f.pages
    ∧ (on_message content (some f) comp s).1.pdfContent ≠ "" := by
  unfold on_message
  rw [if_neg (by simp only [hnt]; exact Bool.false_ne_true), if_neg (by simp only [hid]; exact Bool.false_ne_true), hpdf, if_neg (by decide)]
  dsimp only
  rw [if_pos (by simpa using hex)]
  exact ⟨rfl, hex⟩

/-- Witness for C7: a two-page PDF extracted in a fresh session. -/
theorem on_message_upload_success_ready_witness :
    (on_message "here is my file" (some ⟨"report.pdf", some ["Page one. ", "Page two."]⟩)
        (Except.ok "x") ⟨"", []⟩).1.pdfContent
      = extract_text_from_pdf (some ["Page one. ", "Page two."])
    ∧ (on_message "here is my file" (some ⟨"report.pdf", some ["Page one. ", "Page two."]⟩)
        (Except.ok "x") ⟨"", []⟩).1.pdfContent ≠ "" := by
  have h := on_message_upload_success_ready ⟨"", []⟩ "here is my file"
    ⟨"report.pdf", some ["Page one. ", "Page two."]⟩ (Except.ok "x")
    rfl (by decide) (by decide) (by decide)
  simpa using h

/-- C8: in the AWAITING_UPLOAD state, when extraction fails or yields the empty
string, the error message is shown and the session is unchanged — still
AWAITING_UPLOAD with empty document text. -/
theorem on_message_upload_failure_awaiting (s : Session) (content : String)
    (f : PdfFile) (comp : CompletionResult)
    (hpdf : s.pdfContent = "")
    (hnt : uploadTriggerPhrases.contains (lowerStr content) = false)
    (hid : identity_questions.any (fun q => strContains (lowerStr content) q) = false)
    (hex : extract_text_from_pdf f.pages = "") :
    (on_message content (some f) comp s).1 = s
    ∧ (on_message content (some f) comp s).1.pdfContent = ""
    ∧ Effect.send extractErrorText ∈ (on_message content (some f) comp s).2 := by
  unfold on_message
  rw [if_neg (by simp only [hnt]; exact Bool.false_ne_true), if_neg (by simp only [hid]; exact Bool.false_ne_true), hpdf, if_neg (by decide)]
  dsimp only
  rw [hex, if_neg (by decide)]
  exact ⟨rfl, hpdf, by simp⟩

/-- Witness for C8: the extractor raises (modelled as `none`), yielding "". -/
theorem on_message_upload_failure_awaiting_witness :
    (on_message "here is my file" (some ⟨"broken.pdf", none⟩)
        (Except.ok "x") ⟨"", []⟩).1 = (⟨"", []⟩ : Session)
    ∧ (on_message "here is my file" (some ⟨"broken.pdf", none⟩)
        (Except.ok "x") ⟨"", []⟩).1.pdfContent = ""
    ∧ Effect.send extractErrorText
        ∈ (on_message "here is my file" (some ⟨"broken.pdf", none⟩)
            (Except.ok "x") ⟨"", []⟩).2 := by
  have h := on_message_upload_failure_awaiting ⟨"", []⟩ "here is my file"
    ⟨"broken.pdf", none⟩ (Except.ok "x") rfl (by decide) (by decide) rfl
  simpa using h

/-- With a document loaded, `process_query` always emits exactly three
effects, whichever branch runs. -/
theorem process_query_effects_length (query : String) (comp : CompletionResult)
    (s : Session) (h : s.pdfContent ≠ "") :
    ((process_query query comp s).2).length = 3 := by
  unfold process_query
  rw [if_neg (by simpa using h)]
  split
  · rfl
  · cases comp <;> rfl

/-- C9: the "No PDF content available" guard of `process_query` — whose effect
list is exactly the thinking message followed by that error update — can never
fire through the dispatcher: `on_message` delegates to `process_query` only
when the document text is non-empty and hands it the very same session, with
no mutation in between. -/
theorem no_pdf_error_branch_unreachable :
    (∀ (query : String) (comp : CompletionResult) (s : Session),
        s.pdfContent = "" →
        (process_query query comp s).2
          = [Effect.send thinkingText, Effect.update noPdfErrorText])
    ∧ (∀ (content : String) (f : Option PdfFile) (comp : CompletionResult)
        (s : Session),
        (on_message content f comp s).2
          ≠ [Effect.send thinkingText, Effect.update noPdfErrorText]) := by
  constructor
  · intro query comp s hpdf
    unfold process_query
    rw [if_pos (by simp [hpdf])]
  · intro content f comp s
    unfold on_message
    split
    · simp
    · split
      · simp
      · split
        · rename_i hne
          intro heq
          have hlen := congrArg List.length heq
          rw [process_query_effects_length content comp s (by simpa using hne)]
            at hlen
          simp at hlen
        · cases f with
          | none => simp
          | some pf =>
            dsimp only
            split
            · simp
            · simp

/-- Witness for C9: calling `process_query` directly with an empty document
yields exactly the guard branch's effect list. -/
theorem no_pdf_error_branch_unreachable_witness :
    (process_query "hello" (Except.ok "fine") ⟨"", []⟩).2
      = [Effect.send thinkingText, Effect.update noPdfErrorText] :=
  no_pdf_error_branch_unreachable.1 "hello" (Except.ok "fine") ⟨"", []⟩ rfl

/-- History well-formedness relative to the entry just before the list:
every assistant entry must directly follow a user entry. -/
def wfFrom (prev : Option Message) : List Message → Bool
  | [] => true
  | m :: rest =>
      (m.role != "assistant"
        || (match prev with | some p => p.role == "user" | none => false))
      && wfFrom (some m) rest

/-- A whole history is well-formed when it is well-formed with no predecessor:
no leading assistant entry, and every assistant entry directly follows a user
entry (hence never two consecutive assistant entries). -/
def historyWF (h : List Message) : Bool := wfFrom none h

/-- Appending a user entry preserves history well-formedness. -/
theorem wfFrom_append_user (c : String) :
    ∀ (h : List Message) (prev : Option Message), wfFrom prev h = true →
      wfFrom prev (h ++ [⟨"user", c⟩]) = true
  | [], prev, _ => by simp [wfFrom]
  | m :: t, prev, hw => by
      simp only [wfFrom, Bool.and_eq_true] at hw
      simp only [List.cons_append, wfFrom, Bool.and_eq_true]
      exact ⟨hw.1, wfFrom_append_user c t (some m) hw.2⟩

/-- Appending a user entry followed by an assistant entry preserves history
well-formedness. -/
theorem wfFrom_append_user_assistant (c r : String) :
    ∀ (h : List Message) (prev : Option Message), wfFrom prev h = true →
      wfFrom prev (h ++ [⟨"user", c⟩, ⟨"assistant", r⟩]) = true
  | [], prev, _ => by simp [wfFrom]
  | m :: t, prev, hw => by
      simp only [wfFrom, Bool.and_eq_true] at hw
      simp only [List.cons_append, wfFrom, Bool.and_eq_true]
      exact ⟨hw.1, wfFrom_append_user_assistant c r t (some m) hw.2⟩

/-- Every turn either leaves the history unchanged, appends one user entry, or
appends a user entry followed by an assistant entry. -/
theorem on_message_chatHistory_shape (content : String) (f : Option PdfFile)
    (comp : CompletionResult) (s : Session) :
    (on_message content f comp s).1.chatHistory = s.chatHistory
    ∨ (∃ c, (on_message content f comp s).1.chatHistory
          = s.chatHistory ++ [⟨"user", c⟩])
    ∨ (∃ c r, (on_message content f comp s).1.chatHistory
          = s.chatHistory ++ [⟨"user", c⟩, ⟨"assistant", r⟩]) := by
  unfold on_message
  split
  · left; rfl
  · split
    · left; rfl
    · split
      · unfold process_query
        split
        · left; rfl
        · split
          · left; rfl
          · cases comp with
            | ok resp =>
                right; right
                exact ⟨combinedPrompt s.pdfContent content, resp, by simp⟩
            | error e =>
                by_cases hemp : s.chatHistory.isEmpty
                · left; simp [hemp]
                · right; left
                  exact ⟨combinedPrompt s.pdfContent content, by simp [hemp]⟩
      · cases f with
        | none => left; rfl
        | some pf =>
            dsimp only
            split
            · left; rfl
            · left; rfl

/-- One turn preserves history well-formedness. -/
theorem historyWF_step (s : Session) (e : Event)
    (hw : historyWF s.chatHistory = true) :
    historyWF (stepSession s e).chatHistory = true := by
  rcases on_message_chatHistory_shape e.content e.uploadedFile e.comp s with
    hsh | ⟨c, hsh⟩ | ⟨c, r, hsh⟩
  · unfold stepSession
    rw [hsh]; exact hw
  · unfold stepSession
    rw [hsh]; exact wfFrom_append_user c s.chatHistory none hw
  · unfold stepSession
    rw [hsh]; exact wfFrom_append_user_assistant c r s.chatHistory none hw

/-- C10: in every session state reachable from chat start, every assistant
entry in the history directly follows a user entry of the same exchange: the
history never begins with an assistant entry and never holds two consecutive
assistant entries. -/
theorem history_roles_alternate (evs : List Event) :
    historyWF (runSession evs).chatHistory = true := by
  unfold runSession
  have key : ∀ (l : List Event) (s : Session), historyWF s.chatHistory = true →
      historyWF (l.foldl stepSession s).chatHistory = true := by
    intro l
    induction l with
    | nil => exact fun s hs => hs
    | cons e t ih => exact fun s hs => ih (stepSession s e) (historyWF_step s e hs)
  exact key evs startSession rfl
